import Mathlib

/-!
# Carousel controller and image modal of `scripts/main.js`

A shallow embedding of the carousel functions (`changeSlide`, `goToSlide`,
`updateCarousel`, `setupCarouselAutoPlay`/`startAutoPlay`) and of the image modal
functions (`openImageModal`, `closeImageModal`, `changeModalSlide`,
`goToModalSlide`) of `src/scripts/main.js`.

Modelling conventions.

* The script's globals (`carouselStates`, `currentModalIndex`, `currentProject`) and the
  part of the document the functions read or write are fields of one `State` record; every
  function takes the state and returns the state it leaves behind.
* The two constant tables `projectImages` and `projectCarousels` are the fields of a `Config`
  that every modal function takes; `repoConfig` holds the tables as written in the source.
* An element that `document.getElementById` does not find is `none`.
* The `active` class of a slide or of an indicator is a `Bool`; an ordered `NodeList` is a
  `List Bool`.
* Numbers are integers (`Int`); `undefined` in `carouselStates` is `none`.
* Object keys are ordinary strings: names inherited from `Object.prototype` (such as
  `constructor`) are outside the model.
* A modal function that raises a `TypeError` (a property read or written on `null` or
  `undefined`) yields `Outcome.threw` with the state at the point of the throw, the
  assignments made before it included.
* The slides and indicators of a carousel are distinct elements, and two carousels share
  none of them.
* `setInterval` hands out a handle greater than zero that is recorded, with the carousel it
  advances, in `State.timers`; `clearInterval` removes the handle.
-/

namespace Portfolio

/-! ## Data model -/

/-- The part of a carousel element that the script reads and writes. -/
structure CarouselDom where
  /-- the `active` marks of the `.carousel-slide` elements, in document order -/
  slides : List Bool
  /-- the `active` marks of the `.indicator` elements of the enclosing
  `.project-carousel-container`; `none` when `closest` finds no such container -/
  indicators : Option (List Bool)

/-- One record of `projectImages`. -/
structure Image where
  src : String
  alt : String
deriving DecidableEq, Repr

/-- The constant tables of the script. -/
structure Config where
  projectImages : String → Option (List Image)
  projectCarousels : String → Option String

/-- The tables `projectImages` and `projectCarousels` as the source defines them. -/
def repoConfig : Config where
  projectImages := fun k =>
    if k = "eventa" then
      some [ ⟨"images/eventa/eventa-home.png", "Eventa Home Page"⟩,
             ⟨"images/eventa/eventa-event.png", "Eventa Event Page"⟩,
             ⟨"images/eventa/eventa-order-summary.png", "Eventa Order Summary"⟩,
             ⟨"images/eventa/eventa-payment.png", "Eventa Payment Page"⟩ ]
    else if k = "playpal" then
      some [ ⟨"images/playpal/playpal-mobile.PNG", "PlayPal Mobile App"⟩,
             ⟨"images/playpal/playpal-friends.PNG", "PlayPal Friends"⟩,
             ⟨"images/playpal/playpal-league.png", "PlayPal League"⟩,
             ⟨"images/playpal/playpal-rewards.PNG", "PlayPal Rewards"⟩,
             ⟨"images/playpal/playpal-admin.png", "PlayPal Admin Panel"⟩ ]
    else if k = "pirro" then
      some [ ⟨"images/pirro/pirro.png", "Pirro Jewelry Store"⟩ ]
    else none
  projectCarousels := fun k =>
    if k = "eventa" then some "eventaCarousel"
    else if k = "playpal" then some "playpalCarousel"
    else if k = "pirro" then some "pirroCarousel"
    else none

/-- The script's globals together with the document elements its functions touch. -/
structure State where
  /-- the element `document.getElementById(carouselId)` finds, per carousel name -/
  carousels : String → Option CarouselDom
  /-- the global object `carouselStates` -/
  carouselStates : String → Option Int
  /-- the element `imageModal`, with its `active` mark -/
  modal : Option Bool
  /-- the element `modalImage`, with its `src` and `alt` -/
  modalImage : Option Image
  /-- the element `modalCaption`, with its text -/
  modalCaption : Option String
  /-- the element `modalIndicators`, with the `active` marks of its `.modal-indicator`
  descendants -/
  modalIndicators : Option (List Bool)
  /-- the style property `document.body.style.overflow` -/
  bodyOverflow : String
  /-- the global `currentModalIndex` -/
  currentModalIndex : Int
  /-- the global `currentProject` -/
  currentProject : String
  /-- the interval timers that are active: handle and the carousel the callback advances -/
  timers : List (Nat × String)
  /-- the last handle `setInterval` returned -/
  lastTimer : Nat

/-- The result of a function that may raise a `TypeError`. -/
inductive Outcome where
  /-- the function ran to its end (or to a `return`) -/
  | returned (s : State)
  /-- a `TypeError` was raised; `s` is the state at that point -/
  | threw (s : State)

/-- The state a call leaves behind, whether it returned or threw. -/
def Outcome.state : Outcome → State
  | .returned s => s
  | .threw s => s

/-- Whether the call ran to completion. -/
def Outcome.completed : Outcome → Bool
  | .returned _ => true
  | .threw _ => false

/-! ## Helpers for object and list access -/

/-- The assignment `obj[key] = v` on an object used as a map. -/
def setKey {α : Type} (m : String → Option α) (key : String) (v : α) : String → Option α :=
  fun k => if k = key then some v else m k

/-- The loop `list.forEach((el, i) => el.classList.toggle('active', i === index))`, started at
position `i`. -/
def toggleFrom (index : Int) : Nat → List Bool → List Bool
  | _, [] => []
  | i, _ :: rest => decide ((i : Int) = index) :: toggleFrom index (i + 1) rest

/-- The loop `forEach` with `toggle('active', i === index)` over a whole list. -/
def toggleActive (index : Int) (marks : List Bool) : List Bool :=
  toggleFrom index 0 marks

/-- The search `findIndex(slide => slide.classList.contains('active'))` from position `i`:
the first position that carries the mark, `-1` when none does. -/
def findActiveFrom : Nat → List Bool → Int
  | _, [] => -1
  | i, b :: rest => if b then (i : Int) else findActiveFrom (i + 1) rest

/-- The search `Array.from(slides).findIndex(...)` over the whole list. -/
def findActive (slides : List Bool) : Int :=
  findActiveFrom 0 slides

/-- The element access `images[index]`: `none` stands for `undefined`. -/
def imageAt (images : List Image) (index : Int) : Option Image :=
  if index < 0 then none else images.get? index.toNat

/-- The wrap of `changeSlide` and `changeModalSlide`: below zero goes to `length - 1`,
`length` or more goes to `0`. -/
def wrapIndex (length : Nat) (currentIndex : Int) : Int :=
  if currentIndex < 0 then (length : Int) - 1
  else if currentIndex ≥ (length : Int) then 0
  else currentIndex

/-! ## Carousel functions -/

/-- The function `updateCarousel(carouselId, index)`. -/
def updateCarousel (s : State) (carouselId : String) (index : Int) : State :=
  match s.carousels carouselId with
  | none => s
  | some carousel =>
    let slides := toggleActive index carousel.slides
    let indicators := carousel.indicators.map (toggleActive index)
    { s with carousels := setKey s.carousels carouselId ⟨slides, indicators⟩ }

/-- The function `changeSlide(carouselId, direction)`. -/
def changeSlide (s : State) (carouselId : String) (direction : Int) : State :=
  match s.carousels carouselId with
  | none => s
  | some carousel =>
    let currentIndex : Int :=
      match s.carouselStates carouselId with
      | some i => i
      | none => findActive carousel.slides
    let currentIndex := wrapIndex carousel.slides.length (currentIndex + direction)
    updateCarousel { s with carouselStates := setKey s.carouselStates carouselId currentIndex }
      carouselId currentIndex

/-- The function `goToSlide(carouselId, index)`. -/
def goToSlide (s : State) (carouselId : String) (index : Int) : State :=
  updateCarousel { s with carouselStates := setKey s.carouselStates carouselId index }
    carouselId index

/-! ## Image modal functions -/

/-- The tail shared by `openImageModal` and `goToModalSlide`:
`const carouselId = projectCarousels[currentProject]; if (carouselId) { ... }`.
The empty string is falsy. -/
def syncCarousel (cfg : Config) (s : State) (index : Int) : State :=
  match cfg.projectCarousels s.currentProject with
  | none => s
  | some carouselId =>
    if carouselId = "" then s
    else
      updateCarousel { s with carouselStates := setKey s.carouselStates carouselId index }
        carouselId index

/-- The expression `project || 'eventa'`: an argument left out (`none`) and the empty string
are falsy. -/
def projectOrDefault (project : Option String) : String :=
  match project with
  | none => "eventa"
  | some p => if p = "" then "eventa" else p

/-- The indicator marks `openImageModal` builds: one span per image, the one at `index`
carrying `active`. -/
def buildIndicators (index : Int) (images : List Image) : List Bool :=
  toggleFrom index 0 (images.map (fun _ => false))

/-- The function `openImageModal(imageSrc, imageAlt, index, project)`; `project = none` is a
call that leaves the argument out. -/
def openImageModal (cfg : Config) (s : State) (imageSrc imageAlt : String) (index : Int)
    (project : Option String) : Outcome :=
  match s.modal, s.modalImage with
  | none, _ => .returned s
  | some _, none => .returned s
  | some _, some _ =>
    let s := { s with currentProject := projectOrDefault project, currentModalIndex := index }
    let images := cfg.projectImages s.currentProject
    let s := { s with modalImage := some ⟨imageSrc, imageAlt⟩ }
    match s.modalCaption with
    | none => .threw s
    | some _ =>
      let s := { s with modalCaption := some imageAlt }
      match s.modalIndicators with
      | none => .threw s
      | some _ =>
        let s := { s with modalIndicators := some [] }
        match images with
        | none => .threw s
        | some images =>
          let s := { s with modalIndicators := some (buildIndicators index images) }
          let s := { s with modal := some true, bodyOverflow := "hidden" }
          .returned (syncCarousel cfg s index)

/-- The function `closeImageModal()`. -/
def closeImageModal (s : State) : Outcome :=
  match s.modal with
  | none => .returned s
  | some _ => .returned { s with modal := some false, bodyOverflow := "" }

/-- The function `goToModalSlide(index)`. -/
def goToModalSlide (cfg : Config) (s : State) (index : Int) : Outcome :=
  match s.modalImage, cfg.projectImages s.currentProject with
  | none, _ => .returned s
  | some _, none => .returned s
  | some _, some images =>
    if images.length = 0 then .returned s
    else
      let s := { s with currentModalIndex := index }
      match imageAt images index with
      | none => .threw s
      | some image =>
        let s := { s with modalImage := some ⟨image.src, image.alt⟩ }
        match s.modalCaption with
        | none => .threw s
        | some _ =>
          let s := { s with modalCaption := some image.alt }
          let s :=
            match s.modalIndicators with
            | none => s
            | some indicators => { s with modalIndicators := some (toggleActive index indicators) }
          .returned (syncCarousel cfg s index)

/-- The function `changeModalSlide(direction)`. -/
def changeModalSlide (cfg : Config) (s : State) (direction : Int) : Outcome :=
  match cfg.projectImages s.currentProject with
  | none => .returned s
  | some images =>
    if images.length = 0 then .returned s
    else
      let currentModalIndex := wrapIndex images.length (s.currentModalIndex + direction)
      goToModalSlide cfg { s with currentModalIndex := currentModalIndex } currentModalIndex

/-- The globals as the script initialises them, over the elements of a given document:
`carouselStates = {}`, `currentModalIndex = 0`, `currentProject = 'eventa'`, no timer. -/
def initialState (document : State) : State :=
  { document with
    carouselStates := fun _ => none
    currentModalIndex := 0
    currentProject := "eventa"
    timers := []
    lastTimer := 0 }

/-! ## Auto-play -/

/-- The variables one call of `setupCarouselAutoPlay` closes over. -/
structure AutoPlay where
  carouselId : String
  /-- the value of `slides.length` for the node list captured at setup -/
  slideCount : Nat
  /-- the handle in `autoPlayInterval`; `none` is `undefined` -/
  autoPlayInterval : Option Nat
  /-- the flag the `mouseenter` and `mouseleave` listeners of the container set and clear -/
  isPaused : Bool

/-- The call `setInterval(callback, 5000)`: a fresh handle, greater than zero, is recorded as
active for the carousel the callback advances. -/
def setInterval (s : State) (carouselId : String) : State × Nat :=
  let handle := s.lastTimer + 1
  ({ s with timers := s.timers ++ [(handle, carouselId)], lastTimer := handle }, handle)

/-- The call `clearInterval(handle)`. -/
def clearInterval (s : State) (handle : Nat) : State :=
  { s with timers := s.timers.filter (fun t => t.1 ≠ handle) }

/-- The inner function `startAutoPlay()` of one setup. The handle `0` is falsy. -/
def startAutoPlay (s : State) (a : AutoPlay) : State × AutoPlay :=
  let s :=
    match a.autoPlayInterval with
    | none => s
    | some handle => if handle = 0 then s else clearInterval s handle
  let r := setInterval s a.carouselId
  (r.1, { a with autoPlayInterval := some r.2 })

/-- The function `setupCarouselAutoPlay(carouselId)`. It returns the variables of the new
closure when it gets as far as creating them. -/
def setupCarouselAutoPlay (s : State) (carouselId : String) : State × Option AutoPlay :=
  match s.carousels carouselId with
  | none => (s, none)
  | some carousel =>
    if carousel.slides.length ≤ 1 then (s, none)
    else
      let a : AutoPlay :=
        { carouselId := carouselId, slideCount := carousel.slides.length,
          autoPlayInterval := none, isPaused := false }
      let s := { s with carouselStates := setKey s.carouselStates carouselId 0 }
      let r := startAutoPlay s a
      (r.1, some r.2)

/-- The interval callback of one setup: advance by one unless paused.
`carouselStates[carouselId] || 0` reads an unset entry as `0`; the remainder of JavaScript
takes the sign of the dividend. -/
def autoPlayTick (s : State) (a : AutoPlay) : State :=
  if a.isPaused then s
  else
    let currentSlide : Int := (s.carouselStates a.carouselId).getD 0
    let nextSlide := Int.tmod (currentSlide + 1) (a.slideCount : Int)
    updateCarousel { s with carouselStates := setKey s.carouselStates a.carouselId nextSlide }
      a.carouselId nextSlide

/-- The two calls at the end of the `DOMContentLoaded` handler. -/
def setupAllAutoPlay (s : State) : State :=
  (setupCarouselAutoPlay (setupCarouselAutoPlay s "eventaCarousel").1 "playpalCarousel").1

/-- The number of active interval timers that advance the carousel `carouselId`. -/
def activeTimers (s : State) (carouselId : String) : Nat :=
  (s.timers.filter (fun t => t.2 = carouselId)).length

/-! ## Sample documents

The page that loads the script is not part of the sources; these documents give the
properties concrete inputs. -/

/-- A document with the three carousels of `projectCarousels` and the modal elements, the
first slide of each carousel shown, and the globals as the script initialises them. -/
def samplePage : State where
  carousels := fun k =>
    if k = "eventaCarousel" then
      some ⟨[true, false, false, false], some [true, false, false, false]⟩
    else if k = "playpalCarousel" then
      some ⟨[true, false, false, false, false], some [true, false, false, false, false]⟩
    else if k = "pirroCarousel" then some ⟨[true], some [true]⟩
    else none
  carouselStates := fun _ => none
  modal := some false
  modalImage := some ⟨"", ""⟩
  modalCaption := some ""
  modalIndicators := some []
  bodyOverflow := ""
  currentModalIndex := 0
  currentProject := "eventa"
  timers := []
  lastTimer := 0

/-- The sample page with the third slide of `eventaCarousel` marked in the markup and no
entry in `carouselStates`. -/
def thirdSlidePage : State :=
  { samplePage with
    carousels := fun k =>
      if k = "eventaCarousel" then
        some ⟨[false, false, true, false], some [false, false, true, false]⟩
      else none }

/-- The sample page with `carouselStates['eventaCarousel']` at `3`. -/
def lastSlidePage : State :=
  { samplePage with
    carouselStates := fun k => if k = "eventaCarousel" then some 3 else none }

/-- The sample page after `openImageModal('images/eventa/eventa-home.png', 'Eventa Home Page',
0, 'eventa')`: the modal is open for `eventa` at index `0`. -/
def openedPage : State :=
  (openImageModal repoConfig samplePage "images/eventa/eventa-home.png" "Eventa Home Page" 0
    (some "eventa")).state

/-- The sample page without the element `modalImage`. -/
def noImagePage : State :=
  { samplePage with modalImage := none }

/-- The sample page with one more carousel, `emptyCarousel`, that has no slide and no
indicator. -/
def emptyCarouselPage : State :=
  { samplePage with
    carousels := fun k =>
      if k = "emptyCarousel" then some ⟨[], some []⟩ else samplePage.carousels k }

/-! ## Notions used to state the properties -/

/-- The positions of a list of marks that carry `active`, counted from `i`. -/
def activePositionsFrom : Nat → List Bool → List Nat
  | _, [] => []
  | i, b :: rest =>
    if b then i :: activePositionsFrom (i + 1) rest else activePositionsFrom (i + 1) rest

/-- The positions of a list of marks that carry `active`. -/
def activePositions (marks : List Bool) : List Nat :=
  activePositionsFrom 0 marks

/-- One call on a carousel: `changeSlide(name, d)` or `goToSlide(name, k)`. -/
inductive CarouselOp where
  | change (d : Int)
  | goTo (k : Int)

/-- The call a `CarouselOp` stands for, on the carousel `name`. -/
def CarouselOp.run (name : String) (s : State) : CarouselOp → State
  | .change d => changeSlide s name d
  | .goTo k => goToSlide s name k

/-- A sequence of calls on the carousel `name`, first call first. -/
def runCarouselOps (name : String) (s : State) (ops : List CarouselOp) : State :=
  ops.foldl (CarouselOp.run name) s

/-- The calls the single-active property ranges over for a carousel of `n` slides:
a step by `-1` or `+1`, or a jump to a position below `n`. -/
def CarouselOp.inContract (n : Nat) : CarouselOp → Prop
  | .change d => d = -1 ∨ d = 1
  | .goTo k => 0 ≤ k ∧ k < (n : Int)

/-- Exactly one slide and exactly one indicator of the carousel `name` carry `active`, both at
position `k`, and `carouselStates[name]` is `k`. -/
def SingleActiveAt (s : State) (name : String) (k : Nat) : Prop :=
  ∃ carousel, s.carousels name = some carousel ∧
    activePositions carousel.slides = [k] ∧
    carousel.indicators.map activePositions = some [k] ∧
    s.carouselStates name = some (k : Int)

/-- The four elements of the modal are in the document. `openImageModal` marks the modal
`active` only after it has written to all four, so they are there whenever the modal is
open. -/
def ModalPresent (s : State) : Prop :=
  s.modal.isSome ∧ s.modalImage.isSome ∧ s.modalCaption.isSome ∧ s.modalIndicators.isSome

/-- The modal is open and shows the project `p`. -/
def ModalOpenFor (s : State) (p : String) : Prop :=
  s.modal = some true ∧ ModalPresent s ∧ s.currentProject = p

/-- The range property of the modal index:
`0 ≤ currentModalIndex < projectImages[currentProject].length`. -/
def ModalInRange (cfg : Config) (s : State) : Prop :=
  ∃ images, cfg.projectImages s.currentProject = some images ∧
    0 ≤ s.currentModalIndex ∧ s.currentModalIndex < (images.length : Int)

/-- One call on the modal. -/
inductive ModalOp where
  | openModal (imageSrc imageAlt : String) (index : Int) (project : Option String)
  | closeModal
  | change (direction : Int)
  | goTo (index : Int)

/-- The call a `ModalOp` stands for. -/
def ModalOp.run (cfg : Config) (s : State) : ModalOp → Outcome
  | .openModal imageSrc imageAlt index project => openImageModal cfg s imageSrc imageAlt index project
  | .closeModal => closeImageModal s
  | .change direction => changeModalSlide cfg s direction
  | .goTo index => goToModalSlide cfg s index

/-- The index a call passes lies inside the image set it addresses: the set of the project
being opened for `openImageModal`, the set of the current project for `goToModalSlide`.
`closeImageModal` and `changeModalSlide` pass no index. -/
def ModalOp.indexInSet (cfg : Config) (s : State) : ModalOp → Prop
  | .openModal _ _ index project =>
    ∃ images, cfg.projectImages (projectOrDefault project) = some images ∧
      0 ≤ index ∧ index < (images.length : Int)
  | .closeModal => True
  | .change _ => True
  | .goTo index =>
    ∃ images, cfg.projectImages s.currentProject = some images ∧
      0 ≤ index ∧ index < (images.length : Int)

/-- One event the page handles after start-up: a call on a carousel, a call on the modal, or
the interval callback of one auto-play setup. -/
inductive PageEvent where
  | carouselCall (name : String) (op : CarouselOp)
  | modalCall (op : ModalOp)
  | tick (a : AutoPlay)

/-- The handler of a `PageEvent`; a handler that throws leaves its state behind. -/
def PageEvent.run (cfg : Config) (s : State) : PageEvent → State
  | .carouselCall name op => op.run name s
  | .modalCall op => (op.run cfg s).state
  | .tick a => autoPlayTick s a

/-- A sequence of events, first event first. -/
def runEvents (cfg : Config) (s : State) (events : List PageEvent) : State :=
  events.foldl (PageEvent.run cfg) s

/-! ## Lemmas on the helpers -/

theorem wrapIndex_nonneg (n : Nat) (x : Int) (hn : 1 ≤ n) : 0 ≤ wrapIndex n x := by
  unfold wrapIndex
  split_ifs <;> omega

theorem wrapIndex_lt (n : Nat) (x : Int) (hn : 1 ≤ n) : wrapIndex n x < (n : Int) := by
  unfold wrapIndex
  split_ifs <;> omega

theorem wrapIndex_step (n : Nat) (i d : Int) (h0 : 0 ≤ i) (hi : i < (n : Int))
    (hd : d = -1 ∨ d = 1) : wrapIndex n (i + d) = (i + d) % (n : Int) := by
  unfold wrapIndex
  rcases hd with rfl | rfl
  · by_cases hz : i = 0
    · subst hz
      have hn : (0 : Int) < n := by omega
      have hmod : (0 + -1 : Int) % (n : Int) = (n : Int) - 1 := by
        have h := Int.add_mul_emod_self (a := (0 + -1 : Int)) (b := 1) (c := (n : Int))
        rw [← h, Int.emod_eq_of_lt (by omega) (by omega)]
        omega
      rw [hmod, if_pos (by omega)]
    · have h1 : ¬ (i + -1 < 0) := by omega
      have h2 : ¬ (i + -1 ≥ (n : Int)) := by omega
      rw [if_neg h1, if_neg h2, Int.emod_eq_of_lt (by omega) (by omega)]
  · have h1 : ¬ (i + 1 < 0) := by omega
    rw [if_neg h1]
    by_cases hz : i + 1 = (n : Int)
    · rw [if_pos (by omega), hz, Int.emod_self]
    · rw [if_neg (by omega), Int.emod_eq_of_lt (by omega) (by omega)]

theorem toggleFrom_length (index : Int) (marks : List Bool) (i : Nat) :
    (toggleFrom index i marks).length = marks.length := by
  induction marks generalizing i with
  | nil => rfl
  | cons b rest ih => simp [toggleFrom, ih]

theorem toggleActive_length (index : Int) (marks : List Bool) :
    (toggleActive index marks).length = marks.length :=
  toggleFrom_length index marks 0

theorem activePositionsFrom_toggleFrom_before (k i : Nat) (marks : List Bool) (h : k < i) :
    activePositionsFrom i (toggleFrom (k : Int) i marks) = [] := by
  induction marks generalizing i with
  | nil => rfl
  | cons b rest ih =>
    have hne : ¬ ((i : Int) = (k : Int)) := by omega
    simp [toggleFrom, activePositionsFrom, hne, ih (i + 1) (by omega)]

theorem activePositionsFrom_toggleFrom (k i : Nat) (marks : List Bool) (h1 : i ≤ k)
    (h2 : k < i + marks.length) :
    activePositionsFrom i (toggleFrom (k : Int) i marks) = [k] := by
  induction marks generalizing i with
  | nil => simp at h2; omega
  | cons b rest ih =>
    by_cases hik : i = k
    · subst hik
      simp [toggleFrom, activePositionsFrom,
        activePositionsFrom_toggleFrom_before i (i + 1) rest (by omega)]
    · have hne : ¬ ((i : Int) = (k : Int)) := by omega
      have hlen : k < i + 1 + rest.length := by simp at h2; omega
      simp [toggleFrom, activePositionsFrom, hne, ih (i + 1) (by omega) hlen]

theorem activePositions_toggleActive (k : Nat) (marks : List Bool) (h : k < marks.length) :
    activePositions (toggleActive (k : Int) marks) = [k] :=
  activePositionsFrom_toggleFrom k 0 marks (Nat.zero_le k) (by omega)

/-! ## Lemmas on the carousel functions -/

theorem updateCarousel_carouselStates (s : State) (name : String) (index : Int) :
    (updateCarousel s name index).carouselStates = s.carouselStates := by
  unfold updateCarousel
  cases s.carousels name <;> rfl

theorem updateCarousel_carousel (s : State) (name : String) (index : Int)
    (carousel : CarouselDom) (hc : s.carousels name = some carousel) :
    (updateCarousel s name index).carousels name =
      some ⟨toggleActive index carousel.slides, carousel.indicators.map (toggleActive index)⟩ := by
  unfold updateCarousel
  rw [hc]
  simp [setKey]

theorem changeSlide_carouselStates (s : State) (name : String) (d : Int)
    (carousel : CarouselDom) (hc : s.carousels name = some carousel) :
    (changeSlide s name d).carouselStates name =
      some (wrapIndex carousel.slides.length
        ((match s.carouselStates name with
          | some i => i
          | none => findActive carousel.slides) + d)) := by
  unfold changeSlide
  rw [hc]
  simp [updateCarousel_carouselStates, setKey]

theorem changeSlide_carousel (s : State) (name : String) (d : Int)
    (carousel : CarouselDom) (hc : s.carousels name = some carousel) :
    ∃ k : Int, (changeSlide s name d).carouselStates name = some k ∧
      k = wrapIndex carousel.slides.length
        ((match s.carouselStates name with
          | some i => i
          | none => findActive carousel.slides) + d) ∧
      (changeSlide s name d).carousels name =
        some ⟨toggleActive k carousel.slides, carousel.indicators.map (toggleActive k)⟩ := by
  refine ⟨_, changeSlide_carouselStates s name d carousel hc, rfl, ?_⟩
  unfold changeSlide
  rw [hc]
  simp only []
  rw [updateCarousel_carousel _ _ _ carousel (by simpa using hc)]

theorem goToSlide_carouselStates (s : State) (name : String) (k : Int) :
    (goToSlide s name k).carouselStates name = some k := by
  unfold goToSlide
  simp [updateCarousel_carouselStates, setKey]

theorem goToSlide_carousel (s : State) (name : String) (k : Int)
    (carousel : CarouselDom) (hc : s.carousels name = some carousel) :
    (goToSlide s name k).carousels name =
      some ⟨toggleActive k carousel.slides, carousel.indicators.map (toggleActive k)⟩ := by
  unfold goToSlide
  rw [updateCarousel_carousel _ _ _ carousel (by simpa using hc)]

theorem findActiveFrom_bounds (i : Nat) (marks : List Bool) :
    findActiveFrom i marks = -1 ∨
      ((i : Int) ≤ findActiveFrom i marks ∧ findActiveFrom i marks < (i : Int) + marks.length) := by
  induction marks generalizing i with
  | nil => left; rfl
  | cons b rest ih =>
    cases b with
    | true => right; simp [findActiveFrom]
    | false =>
      rcases ih (i + 1) with h | ⟨h1, h2⟩
      · left; simpa [findActiveFrom] using h
      · right
        simp only [findActiveFrom, Bool.false_eq_true, if_false, List.length_cons]
        push_cast at h1 h2 ⊢
        omega

theorem findActive_bounds (marks : List Bool) :
    findActive marks = -1 ∨ (0 ≤ findActive marks ∧ findActive marks < marks.length) := by
  have h := findActiveFrom_bounds 0 marks
  simpa [findActive] using h

/-! ## Carousel properties -/

/-- C2: on a carousel with `N ≥ 1` slides whose stored index `i` is in `[0, N)`,
`changeSlide(name, d)` with `d` in `{-1, +1}` stores `(i + d) mod N`, which is again in
`[0, N)`; from `0` a step back stores `N - 1`, from `N - 1` a step forward stores `0`, and
on four slides `goToSlide(name, 3)` followed by `changeSlide(name, +1)` stores `0`. -/
theorem changeSlide_wraps_modulo (s : State) (name : String) (carousel : CarouselDom)
    (i d : Int) (hc : s.carousels name = some carousel) (hN : 1 ≤ carousel.slides.length)
    (hs : s.carouselStates name = some i) (h0 : 0 ≤ i)
    (hi : i < (carousel.slides.length : Int)) (hd : d = -1 ∨ d = 1) :
    (changeSlide s name d).carouselStates name
        = some ((i + d) % (carousel.slides.length : Int)) ∧
      0 ≤ (i + d) % (carousel.slides.length : Int) ∧
      (i + d) % (carousel.slides.length : Int) < (carousel.slides.length : Int) ∧
      (i = 0 → (changeSlide s name (-1)).carouselStates name
        = some ((carousel.slides.length : Int) - 1)) ∧
      (i = (carousel.slides.length : Int) - 1 →
        (changeSlide s name 1).carouselStates name = some 0) ∧
      (carousel.slides.length = 4 →
        (changeSlide (goToSlide s name 3) name 1).carouselStates name = some 0) := by
  have hn : (0 : Int) < (carousel.slides.length : Int) := by omega
  refine ⟨?_, Int.emod_nonneg _ (by omega), Int.emod_lt_of_pos _ hn, ?_, ?_, ?_⟩
  · rw [changeSlide_carouselStates s name d carousel hc, hs]
    simp only []
    rw [wrapIndex_step _ i d h0 hi hd]
  · intro hz
    rw [changeSlide_carouselStates s name (-1) carousel hc, hs]
    show some (wrapIndex _ (i + -1)) = _
    unfold wrapIndex
    rw [if_pos (by omega)]
  · intro hz
    rw [changeSlide_carouselStates s name 1 carousel hc, hs]
    show some (wrapIndex _ (i + 1)) = _
    unfold wrapIndex
    rw [if_neg (by omega), if_pos (by omega)]
  · intro h4
    have hg := goToSlide_carousel s name 3 carousel hc
    rw [changeSlide_carouselStates _ name 1 _ hg, goToSlide_carouselStates]
    simp only [toggleActive_length, h4, wrapIndex]
    rfl

/-- C3: on a carousel with `N > 1` slides and `N` indicators, from any state and after any
non-empty sequence of `changeSlide(name, ±1)` and `goToSlide(name, k)` calls with
`0 ≤ k < N`, exactly one slide and exactly one indicator carry `active`, both at the
position stored in `carouselStates[name]`. -/
theorem single_active_after_ops (s : State) (name : String) (carousel : CarouselDom)
    (indicators : List Bool) (ops : List CarouselOp)
    (hc : s.carousels name = some carousel) (hN : 1 < carousel.slides.length)
    (hind : carousel.indicators = some indicators)
    (hlen : indicators.length = carousel.slides.length)
    (hne : ops ≠ [])
    (hops : ∀ op ∈ ops, CarouselOp.inContract carousel.slides.length op) :
    ∃ k : Nat, k < carousel.slides.length ∧
      SingleActiveAt (runCarouselOps name s ops) name k := by
  -- the shape of the carousel is kept by every call
  have shape : ∀ (ops : List CarouselOp) (s : State),
      (∃ c inds, s.carousels name = some c ∧ c.indicators = some inds ∧
        c.slides.length = carousel.slides.length ∧ inds.length = carousel.slides.length) →
      ∃ c inds, (runCarouselOps name s ops).carousels name = some c ∧
        c.indicators = some inds ∧
        c.slides.length = carousel.slides.length ∧ inds.length = carousel.slides.length := by
    intro ops
    induction ops with
    | nil => intro s h; exact h
    | cons op rest ih =>
      intro s ⟨c, inds, h1, h2, h3, h4⟩
      apply ih
      cases op with
      | change d =>
        obtain ⟨k, _, _, hk⟩ := changeSlide_carousel s name d c h1
        exact ⟨_, toggleActive k inds, hk, by simp [h2], by simp [toggleActive_length, h3],
          by simp [toggleActive_length, h4]⟩
      | goTo k =>
        exact ⟨_, toggleActive k inds, goToSlide_carousel s name k c h1, by simp [h2],
          by simp [toggleActive_length, h3], by simp [toggleActive_length, h4]⟩
  -- the last call establishes the property
  have last : ∀ (s : State) (op : CarouselOp),
      (∃ c inds, s.carousels name = some c ∧ c.indicators = some inds ∧
        c.slides.length = carousel.slides.length ∧ inds.length = carousel.slides.length) →
      CarouselOp.inContract carousel.slides.length op →
      ∃ k : Nat, k < carousel.slides.length ∧ SingleActiveAt (op.run name s) name k := by
    intro s op ⟨c, inds, h1, h2, h3, h4⟩ hop
    have key : ∀ (j : Int) (s' : State), 0 ≤ j → j < (carousel.slides.length : Int) →
        s'.carouselStates name = some j →
        s'.carousels name = some ⟨toggleActive j c.slides, c.indicators.map (toggleActive j)⟩ →
        ∃ k : Nat, k < carousel.slides.length ∧ SingleActiveAt s' name k := by
      intro j s' hj0 hjn hst hcar
      obtain ⟨k, rfl⟩ := Int.eq_ofNat_of_zero_le hj0
      have hk : k < carousel.slides.length := by omega
      refine ⟨k, hk, _, hcar, ?_, ?_, hst⟩
      · exact activePositions_toggleActive k c.slides (by omega)
      · simp [h2, activePositions_toggleActive k inds (by omega)]
    cases op with
    | change d =>
      obtain ⟨j, hst, hj, hcar⟩ := changeSlide_carousel s name d c h1
      rw [h3] at hj
      exact key j _ (hj ▸ wrapIndex_nonneg _ _ (by omega)) (hj ▸ wrapIndex_lt _ _ (by omega))
        hst hcar
    | goTo j =>
      exact key j _ hop.1 hop.2 (goToSlide_carouselStates s name j)
        (goToSlide_carousel s name j c h1)
  rcases List.eq_nil_or_concat ops with h | ⟨init, op, h⟩
  · exact absurd h hne
  · subst h
    have hstep : runCarouselOps name s (init.concat op)
        = op.run name (runCarouselOps name s init) := by
      simp [runCarouselOps, List.foldl_append]
    rw [hstep]
    exact last _ op (shape init s ⟨carousel, indicators, hc, hind, rfl, hlen⟩)
      (hops op (by simp))

/-- C7 (amended): on a carousel with `N ≥ 1` slides whose name has no entry in
`carouselStates`, `changeSlide(name, d)` with `d` in `{-1, +1}` starts from the position `f`
of the first slide that carries `active` (`-1` when no slide does) and stores `f + d`
wrapped into `[0, N)`: `(f + d) mod N` when a slide is active, so `(0 + d) mod N` when
the first slide is. -/
theorem changeSlide_unset_starts_from_active (s : State) (name : String)
    (carousel : CarouselDom) (d : Int) (hc : s.carousels name = some carousel)
    (hN : 1 ≤ carousel.slides.length) (hs : s.carouselStates name = none)
    (hd : d = -1 ∨ d = 1) :
    (changeSlide s name d).carouselStates name
        = some (wrapIndex carousel.slides.length (findActive carousel.slides + d)) ∧
      0 ≤ wrapIndex carousel.slides.length (findActive carousel.slides + d) ∧
      wrapIndex carousel.slides.length (findActive carousel.slides + d)
        < (carousel.slides.length : Int) ∧
      (0 ≤ findActive carousel.slides →
        (changeSlide s name d).carouselStates name
          = some ((findActive carousel.slides + d) % (carousel.slides.length : Int))) ∧
      (carousel.slides.head? = some true →
        (changeSlide s name d).carouselStates name
          = some ((0 + d) % (carousel.slides.length : Int))) := by
  have hst : (changeSlide s name d).carouselStates name
      = some (wrapIndex carousel.slides.length (findActive carousel.slides + d)) := by
    rw [changeSlide_carouselStates s name d carousel hc, hs]
  have hpos : 0 ≤ findActive carousel.slides →
      (changeSlide s name d).carouselStates name
        = some ((findActive carousel.slides + d) % (carousel.slides.length : Int)) := by
    intro hf
    rw [hst]
    rcases findActive_bounds carousel.slides with h | ⟨_, h⟩
    · omega
    · rw [wrapIndex_step _ _ d hf h hd]
  refine ⟨hst, wrapIndex_nonneg _ _ hN, wrapIndex_lt _ _ hN, hpos, ?_⟩
  intro hhead
  have hf : findActive carousel.slides = 0 := by
    cases hsl : carousel.slides with
    | nil => simp [hsl] at hhead
    | cons b rest =>
      simp [hsl] at hhead
      simp [findActive, findActiveFrom, hhead]
  have := hpos (by omega)
  rwa [hf] at this

theorem changeSlide_wraps_modulo_witness :
    (changeSlide lastSlidePage "eventaCarousel" 1).carouselStates "eventaCarousel"
      = some ((3 + 1) % (([true, false, false, false] : List Bool).length : Int)) :=
  (changeSlide_wraps_modulo lastSlidePage "eventaCarousel"
    ⟨[true, false, false, false], some [true, false, false, false]⟩ 3 1
    rfl (by decide) rfl (by decide) (by decide) (Or.inr rfl)).1

theorem single_active_after_ops_witness :
    ∃ k : Nat, k < 4 ∧
      SingleActiveAt
        (runCarouselOps "eventaCarousel" samplePage [.change (-1), .goTo 2, .change 1])
        "eventaCarousel" k :=
  single_active_after_ops samplePage "eventaCarousel"
    ⟨[true, false, false, false], some [true, false, false, false]⟩
    [true, false, false, false] [.change (-1), .goTo 2, .change 1]
    rfl (by decide) rfl rfl (by simp)
    (by
      intro op hop
      simp only [List.mem_cons, List.mem_singleton, List.not_mem_nil, or_false] at hop
      rcases hop with rfl | rfl | rfl
      · exact Or.inl rfl
      · exact ⟨by decide, by decide⟩
      · exact Or.inr rfl)

/-- C7 (as stated, refuted): `eventaCarousel` has four slides, the third one marked, and no
entry in `carouselStates`; `changeSlide('eventaCarousel', +1)` stores `3`, not
`(0 + 1) mod 4 = 1`. -/
theorem changeSlide_unset_reads_markup :
    thirdSlidePage.carouselStates "eventaCarousel" = none ∧
      thirdSlidePage.carousels "eventaCarousel"
        = some ⟨[false, false, true, false], some [false, false, true, false]⟩ ∧
      (changeSlide thirdSlidePage "eventaCarousel" 1).carouselStates "eventaCarousel"
        = some 3 ∧
      ((0 + 1) % 4 : Int) ≠ 3 := by
  refine ⟨rfl, rfl, ?_, by decide⟩
  rw [changeSlide_carouselStates thirdSlidePage "eventaCarousel" 1 _ rfl]
  rfl

theorem changeSlide_unset_starts_from_active_witness :
    (changeSlide thirdSlidePage "eventaCarousel" 1).carouselStates "eventaCarousel"
      = some (wrapIndex 4 (findActive [false, false, true, false] + 1)) :=
  (changeSlide_unset_starts_from_active thirdSlidePage "eventaCarousel"
    ⟨[false, false, true, false], some [false, false, true, false]⟩ 1
    rfl (by decide) rfl (Or.inr rfl)).1

/-! ## Lemmas on the modal functions -/

theorem updateCarousel_currentModalIndex (s : State) (name : String) (index : Int) :
    (updateCarousel s name index).currentModalIndex = s.currentModalIndex := by
  unfold updateCarousel
  cases s.carousels name <;> rfl

theorem updateCarousel_currentProject (s : State) (name : String) (index : Int) :
    (updateCarousel s name index).currentProject = s.currentProject := by
  unfold updateCarousel
  cases s.carousels name <;> rfl

theorem updateCarousel_modal (s : State) (name : String) (index : Int) :
    (updateCarousel s name index).modal = s.modal ∧
      (updateCarousel s name index).modalImage = s.modalImage ∧
      (updateCarousel s name index).modalCaption = s.modalCaption ∧
      (updateCarousel s name index).modalIndicators = s.modalIndicators := by
  unfold updateCarousel
  cases s.carousels name <;> exact ⟨rfl, rfl, rfl, rfl⟩

theorem syncCarousel_currentModalIndex (cfg : Config) (s : State) (index : Int) :
    (syncCarousel cfg s index).currentModalIndex = s.currentModalIndex := by
  unfold syncCarousel
  split
  · rfl
  · split
    · rfl
    · rw [updateCarousel_currentModalIndex]

theorem syncCarousel_currentProject (cfg : Config) (s : State) (index : Int) :
    (syncCarousel cfg s index).currentProject = s.currentProject := by
  unfold syncCarousel
  split
  · rfl
  · split
    · rfl
    · rw [updateCarousel_currentProject]

theorem syncCarousel_modal (cfg : Config) (s : State) (index : Int) :
    (syncCarousel cfg s index).modal = s.modal ∧
      (syncCarousel cfg s index).modalImage = s.modalImage ∧
      (syncCarousel cfg s index).modalCaption = s.modalCaption ∧
      (syncCarousel cfg s index).modalIndicators = s.modalIndicators := by
  unfold syncCarousel
  split
  · exact ⟨rfl, rfl, rfl, rfl⟩
  · split
    · exact ⟨rfl, rfl, rfl, rfl⟩
    · exact updateCarousel_modal _ _ _

theorem syncCarousel_carouselStates (cfg : Config) (s : State) (index : Int) (c : String)
    (hc : cfg.projectCarousels s.currentProject = some c) (hne : c ≠ "") :
    (syncCarousel cfg s index).carouselStates c = some index := by
  unfold syncCarousel
  rw [hc]
  simp only [if_neg hne]
  rw [updateCarousel_carouselStates]
  simp [setKey]

/-- What a call of `openImageModal` does when the modal elements are there and the project
has an image set. -/
theorem openImageModal_returned (cfg : Config) (s : State) (imageSrc imageAlt : String)
    (index : Int) (project : Option String) (images : List Image) (hp : ModalPresent s)
    (himg : cfg.projectImages (projectOrDefault project) = some images) :
    ∃ s', openImageModal cfg s imageSrc imageAlt index project = .returned s' ∧
      s'.currentProject = projectOrDefault project ∧ s'.currentModalIndex = index ∧
      s'.modal = some true ∧ ModalPresent s' ∧
      (∀ c, cfg.projectCarousels (projectOrDefault project) = some c → c ≠ "" →
        s'.carouselStates c = some index) := by
  obtain ⟨h1, h2, h3, h4⟩ := hp
  obtain ⟨m, hm⟩ := Option.isSome_iff_exists.mp h1
  obtain ⟨im, him⟩ := Option.isSome_iff_exists.mp h2
  obtain ⟨cap, hcap⟩ := Option.isSome_iff_exists.mp h3
  obtain ⟨ind, hind⟩ := Option.isSome_iff_exists.mp h4
  have heq : openImageModal cfg s imageSrc imageAlt index project =
      .returned (syncCarousel cfg
        { s with
          currentProject := projectOrDefault project, currentModalIndex := index,
          modalImage := some ⟨imageSrc, imageAlt⟩, modalCaption := some imageAlt,
          modalIndicators := some (buildIndicators index images),
          modal := some true, bodyOverflow := "hidden" } index) := by
    unfold openImageModal
    simp only [hm, him, hcap, hind, himg]
  obtain ⟨e1, e2, e3, e4⟩ := syncCarousel_modal cfg
    { s with
      currentProject := projectOrDefault project, currentModalIndex := index,
      modalImage := some ⟨imageSrc, imageAlt⟩, modalCaption := some imageAlt,
      modalIndicators := some (buildIndicators index images),
      modal := some true, bodyOverflow := "hidden" } index
  refine ⟨_, heq, ?_, ?_, ?_, ?_, ?_⟩
  · rw [syncCarousel_currentProject]
  · rw [syncCarousel_currentModalIndex]
  · rw [e1]
  · exact ⟨by rw [e1]; rfl, by rw [e2]; rfl, by rw [e3]; rfl, by rw [e4]; rfl⟩
  · intro c hc hne
    exact syncCarousel_carouselStates cfg _ index c hc hne

theorem imageAt_isSome (images : List Image) (k : Int) (h0 : 0 ≤ k)
    (hk : k < (images.length : Int)) : ∃ image, imageAt images k = some image := by
  unfold imageAt
  rw [if_neg (by omega)]
  have hlt : k.toNat < images.length := by omega
  exact ⟨images.get ⟨k.toNat, hlt⟩, List.get?_eq_get hlt⟩

/-- What a call of `goToModalSlide` does when the image and caption elements are there and
the index lies inside the image set of the current project. -/
theorem goToModalSlide_returned (cfg : Config) (s : State) (k : Int) (images : List Image)
    (h2 : s.modalImage.isSome) (h3 : s.modalCaption.isSome)
    (himg : cfg.projectImages s.currentProject = some images)
    (h0 : 0 ≤ k) (hk : k < (images.length : Int)) :
    ∃ s', goToModalSlide cfg s k = .returned s' ∧
      s'.currentProject = s.currentProject ∧ s'.currentModalIndex = k ∧
      (∀ c, cfg.projectCarousels s.currentProject = some c → c ≠ "" →
        s'.carouselStates c = some k) := by
  obtain ⟨im, him⟩ := Option.isSome_iff_exists.mp h2
  obtain ⟨cap, hcap⟩ := Option.isSome_iff_exists.mp h3
  obtain ⟨image, himage⟩ := imageAt_isSome images k h0 hk
  have hlen : images.length ≠ 0 := by omega
  have heq : goToModalSlide cfg s k =
      .returned (syncCarousel cfg
        (match s.modalIndicators with
          | none =>
            { s with
              currentModalIndex := k, modalImage := some ⟨image.src, image.alt⟩,
              modalCaption := some image.alt }
          | some indicators =>
            { s with
              currentModalIndex := k, modalImage := some ⟨image.src, image.alt⟩,
              modalCaption := some image.alt,
              modalIndicators := some (toggleActive k indicators) }) k) := by
    unfold goToModalSlide
    simp only [him, himg, hlen, if_false, himage, hcap]
  have hproj : ∀ s₁ : State, s₁.currentProject = s.currentProject →
      s₁.currentModalIndex = k →
      (syncCarousel cfg s₁ k).currentProject = s.currentProject ∧
        (syncCarousel cfg s₁ k).currentModalIndex = k ∧
        (∀ c, cfg.projectCarousels s.currentProject = some c → c ≠ "" →
          (syncCarousel cfg s₁ k).carouselStates c = some k) := by
    intro s₁ hp hi
    refine ⟨by rw [syncCarousel_currentProject, hp], by rw [syncCarousel_currentModalIndex, hi],
      ?_⟩
    intro c hc hne
    exact syncCarousel_carouselStates cfg s₁ k c (by rw [hp]; exact hc) hne
  refine ⟨_, heq, ?_⟩
  cases s.modalIndicators <;> exact hproj _ rfl rfl

theorem changeModalSlide_eq (cfg : Config) (s : State) (d : Int) (images : List Image)
    (himg : cfg.projectImages s.currentProject = some images) (hlen : images.length ≠ 0) :
    changeModalSlide cfg s d =
      goToModalSlide cfg
        { s with currentModalIndex := wrapIndex images.length (s.currentModalIndex + d) }
        (wrapIndex images.length (s.currentModalIndex + d)) := by
  unfold changeModalSlide
  simp only [himg, hlen, if_false]

/-- What a call of `changeModalSlide` does when the image and caption elements are there and
the current project has a non-empty image set. -/
theorem changeModalSlide_returned (cfg : Config) (s : State) (d : Int) (images : List Image)
    (h2 : s.modalImage.isSome) (h3 : s.modalCaption.isSome)
    (himg : cfg.projectImages s.currentProject = some images) (hlen : images.length ≠ 0) :
    ∃ s', changeModalSlide cfg s d = .returned s' ∧
      s'.currentProject = s.currentProject ∧
      s'.currentModalIndex = wrapIndex images.length (s.currentModalIndex + d) ∧
      (∀ c, cfg.projectCarousels s.currentProject = some c → c ≠ "" →
        s'.carouselStates c = some s'.currentModalIndex) := by
  rw [changeModalSlide_eq cfg s d images himg hlen]
  obtain ⟨s', e1, e2, e3, e4⟩ := goToModalSlide_returned cfg
    { s with currentModalIndex := wrapIndex images.length (s.currentModalIndex + d) }
    (wrapIndex images.length (s.currentModalIndex + d)) images h2 h3 himg
    (wrapIndex_nonneg _ _ (by omega)) (wrapIndex_lt _ _ (by omega))
  exact ⟨s', e1, e2, e3, fun c hc hne => by rw [e3]; exact e4 c hc hne⟩

/-- The keys of `projectCarousels` in the source are the keys of `projectImages`, every image
set is non-empty and no carousel name is empty. -/
theorem repoConfig_carousel (p c : String) (h : repoConfig.projectCarousels p = some c) :
    c ≠ "" ∧ ∃ images, repoConfig.projectImages p = some images ∧ images.length ≠ 0 := by
  simp only [repoConfig] at h ⊢
  split_ifs at h with h1 h2 h3
  · simp only [Option.some.injEq] at h
    subst h; subst h1
    exact ⟨by decide, _, rfl, by decide⟩
  · simp only [Option.some.injEq] at h
    subst h; subst h2
    exact ⟨by decide, _, rfl, by decide⟩
  · simp only [Option.some.injEq] at h
    subst h; subst h3
    exact ⟨by decide, _, rfl, by decide⟩

theorem repoConfig_images (p : String) (images : List Image)
    (h : repoConfig.projectImages p = some images) :
    p ≠ "" ∧ images.length ≠ 0 := by
  simp only [repoConfig] at h
  split_ifs at h with h1 h2 h3
  · simp only [Option.some.injEq] at h
    subst h; subst h1
    exact ⟨by decide, by decide⟩
  · simp only [Option.some.injEq] at h
    subst h; subst h2
    exact ⟨by decide, by decide⟩
  · simp only [Option.some.injEq] at h
    subst h; subst h3
    exact ⟨by decide, by decide⟩

theorem openImageModal_globals (cfg : Config) (s : State) (imageSrc imageAlt : String)
    (index : Int) (project : Option String) :
    ((openImageModal cfg s imageSrc imageAlt index project).state.currentProject
        = s.currentProject ∧
      (openImageModal cfg s imageSrc imageAlt index project).state.currentModalIndex
        = s.currentModalIndex) ∨
    ((openImageModal cfg s imageSrc imageAlt index project).state.currentProject
        = projectOrDefault project ∧
      (openImageModal cfg s imageSrc imageAlt index project).state.currentModalIndex
        = index) := by
  unfold openImageModal
  split
  · left; exact ⟨rfl, rfl⟩
  · left; exact ⟨rfl, rfl⟩
  · right
    simp only []
    split
    · exact ⟨rfl, rfl⟩
    · split
      · exact ⟨rfl, rfl⟩
      · split
        · exact ⟨rfl, rfl⟩
        · simp only [Outcome.state, syncCarousel_currentProject,
            syncCarousel_currentModalIndex, and_self]

theorem goToModalSlide_globals (cfg : Config) (s : State) (k : Int) :
    (goToModalSlide cfg s k).state.currentProject = s.currentProject ∧
      ((goToModalSlide cfg s k).state.currentModalIndex = s.currentModalIndex ∨
        (goToModalSlide cfg s k).state.currentModalIndex = k) := by
  unfold goToModalSlide
  split
  · exact ⟨rfl, Or.inl rfl⟩
  · exact ⟨rfl, Or.inl rfl⟩
  · split
    · exact ⟨rfl, Or.inl rfl⟩
    · simp only []
      split
      · exact ⟨rfl, Or.inr rfl⟩
      · split
        · exact ⟨rfl, Or.inr rfl⟩
        · refine ⟨?_, Or.inr ?_⟩
          · simp only [Outcome.state, syncCarousel_currentProject]
            split <;> rfl
          · simp only [Outcome.state, syncCarousel_currentModalIndex]
            split <;> rfl

theorem closeImageModal_globals (s : State) :
    (closeImageModal s).state.currentProject = s.currentProject ∧
      (closeImageModal s).state.currentModalIndex = s.currentModalIndex := by
  unfold closeImageModal
  split <;> exact ⟨rfl, rfl⟩

/-- Every modal call whose index argument lies inside the image set it addresses keeps the
range property, whatever the tables are. -/
theorem modalOp_keeps_range (cfg : Config) (s : State) (op : ModalOp)
    (hr : ModalInRange cfg s) (hop : op.indexInSet cfg s) :
    ModalInRange cfg (op.run cfg s).state := by
  obtain ⟨images, himg, h0, h1⟩ := hr
  cases op with
  | openModal imageSrc imageAlt index project =>
    obtain ⟨imagesQ, hq, hq0, hq1⟩ := hop
    rcases openImageModal_globals cfg s imageSrc imageAlt index project with ⟨e1, e2⟩ | ⟨e1, e2⟩
    · exact ⟨images, by simp only [ModalOp.run]; rw [e1]; exact himg,
        by simp only [ModalOp.run]; rw [e2]; exact h0,
        by simp only [ModalOp.run]; rw [e2]; exact h1⟩
    · exact ⟨imagesQ, by simp only [ModalOp.run]; rw [e1]; exact hq,
        by simp only [ModalOp.run]; rw [e2]; exact hq0,
        by simp only [ModalOp.run]; rw [e2]; exact hq1⟩
  | closeModal =>
    obtain ⟨e1, e2⟩ := closeImageModal_globals s
    exact ⟨images, by simp only [ModalOp.run]; rw [e1]; exact himg,
      by simp only [ModalOp.run]; rw [e2]; exact h0,
      by simp only [ModalOp.run]; rw [e2]; exact h1⟩
  | change d =>
    have hlen : images.length ≠ 0 := by omega
    have hw0 := wrapIndex_nonneg images.length (s.currentModalIndex + d) (by omega)
    have hw1 := wrapIndex_lt images.length (s.currentModalIndex + d) (by omega)
    simp only [ModalOp.run]
    rw [changeModalSlide_eq cfg s d images himg hlen]
    obtain ⟨e1, e2⟩ := goToModalSlide_globals cfg
      { s with currentModalIndex := wrapIndex images.length (s.currentModalIndex + d) }
      (wrapIndex images.length (s.currentModalIndex + d))
    refine ⟨images, by rw [e1]; exact himg, ?_, ?_⟩
    · rcases e2 with e | e <;> (rw [e]; exact hw0)
    · rcases e2 with e | e <;> (rw [e]; exact hw1)
  | goTo k =>
    obtain ⟨imagesK, hk, hk0, hk1⟩ := hop
    rw [himg] at hk
    cases hk
    obtain ⟨e1, e2⟩ := goToModalSlide_globals cfg s k
    simp only [ModalOp.run]
    refine ⟨images, by rw [e1]; exact himg, ?_, ?_⟩
    · rcases e2 with e | e <;> rw [e]
      · exact h0
      · exact hk0
    · rcases e2 with e | e <;> rw [e]
      · exact h1
      · exact hk1

theorem changeSlide_absent (s : State) (name : String) (d : Int)
    (h : s.carousels name = none) : changeSlide s name d = s := by
  unfold changeSlide
  rw [h]

theorem updateCarousel_absent (s : State) (name : String) (index : Int)
    (h : s.carousels name = none) : updateCarousel s name index = s := by
  unfold updateCarousel
  rw [h]

theorem openImageModal_no_image (cfg : Config) (s : State) (imageSrc imageAlt : String)
    (index : Int) (project : Option String) (h : s.modalImage = none) :
    openImageModal cfg s imageSrc imageAlt index project = .returned s := by
  unfold openImageModal
  rw [h]
  cases s.modal <;> rfl

theorem goToModalSlide_no_image (cfg : Config) (s : State) (index : Int)
    (h : s.modalImage = none) : goToModalSlide cfg s index = .returned s := by
  unfold goToModalSlide
  rw [h]

theorem changeModalSlide_empty (cfg : Config) (s : State) (d : Int)
    (h : cfg.projectImages s.currentProject = some []) :
    changeModalSlide cfg s d = .returned s := by
  unfold changeModalSlide
  rw [h]
  rfl

theorem goToModalSlide_empty (cfg : Config) (s : State) (index : Int)
    (h : cfg.projectImages s.currentProject = some []) :
    goToModalSlide cfg s index = .returned s := by
  unfold goToModalSlide
  rw [h]
  cases s.modalImage <;> rfl

/-! ## Modal properties -/

/-- C1 (amended): for every project key `p` that `projectCarousels` maps to a carousel name
`c`, from any state in which the four modal elements are present (as they are whenever the
modal is open), `openImageModal` with project `p` and any index, and, when the current project
is `p`, `changeModalSlide` with `-1` or `+1` and `goToModalSlide` with an index inside the
image set of `p`, return and leave `carouselStates[c] == currentModalIndex`; after
`openImageModal(src, alt, 2, 'eventa')`, `carouselStates['eventaCarousel']` is `2`. -/
theorem modal_mutation_syncs_carousel (s : State) (p c : String)
    (hpc : repoConfig.projectCarousels p = some c) (hp : ModalPresent s) :
    (∀ (imageSrc imageAlt : String) (index : Int),
        ∃ s', openImageModal repoConfig s imageSrc imageAlt index (some p) = .returned s' ∧
          s'.currentProject = p ∧ s'.currentModalIndex = index ∧
          s'.carouselStates c = some s'.currentModalIndex) ∧
      (s.currentProject = p → ∀ d : Int, d = -1 ∨ d = 1 →
        ∃ s', changeModalSlide repoConfig s d = .returned s' ∧
          s'.currentProject = p ∧ s'.carouselStates c = some s'.currentModalIndex) ∧
      (s.currentProject = p → ∀ (k : Int) (images : List Image),
        repoConfig.projectImages p = some images → 0 ≤ k → k < (images.length : Int) →
        ∃ s', goToModalSlide repoConfig s k = .returned s' ∧
          s'.currentProject = p ∧ s'.currentModalIndex = k ∧
          s'.carouselStates c = some s'.currentModalIndex) ∧
      (p = "eventa" → ∀ imageSrc imageAlt : String,
        (openImageModal repoConfig s imageSrc imageAlt 2 (some "eventa")).state.carouselStates
          "eventaCarousel" = some 2) := by
  obtain ⟨hcne, images, himg, hlen⟩ := repoConfig_carousel p c hpc
  have hpne : p ≠ "" := (repoConfig_images p images himg).1
  have hdef : projectOrDefault (some p) = p := by simp [projectOrDefault, hpne]
  have hopen : ∀ (imageSrc imageAlt : String) (index : Int),
      ∃ s', openImageModal repoConfig s imageSrc imageAlt index (some p) = .returned s' ∧
        s'.currentProject = p ∧ s'.currentModalIndex = index ∧
        s'.carouselStates c = some s'.currentModalIndex := by
    intro imageSrc imageAlt index
    obtain ⟨s', e, e1, e2, _, _, e5⟩ := openImageModal_returned repoConfig s imageSrc imageAlt
      index (some p) images hp (by rw [hdef]; exact himg)
    exact ⟨s', e, by rw [e1, hdef], e2, by rw [e2]; exact e5 c (by rw [hdef]; exact hpc) hcne⟩
  refine ⟨hopen, ?_, ?_, ?_⟩
  · intro hcur d _
    subst hcur
    obtain ⟨s', e, e1, _, e3⟩ := changeModalSlide_returned repoConfig s d images hp.2.1 hp.2.2.1
      himg hlen
    exact ⟨s', e, e1, e3 c hpc hcne⟩
  · intro hcur k imagesK hk h0 h1
    subst hcur
    obtain ⟨s', e, e1, e2, e3⟩ := goToModalSlide_returned repoConfig s k imagesK hp.2.1
      hp.2.2.1 hk h0 h1
    exact ⟨s', e, e1, e2, by rw [e2]; exact e3 c hpc hcne⟩
  · intro hev imageSrc imageAlt
    subst hev
    have hc : c = "eventaCarousel" := by
      have : repoConfig.projectCarousels "eventa" = some "eventaCarousel" := rfl
      rw [this] at hpc
      exact (Option.some.inj hpc).symm
    subst hc
    obtain ⟨s', e, _, e2, e3⟩ := hopen imageSrc imageAlt 2
    rw [e]
    simp only [Outcome.state]
    rw [e3, e2]

theorem modal_mutation_syncs_carousel_witness :
    ∃ s', goToModalSlide repoConfig openedPage 3 = .returned s' ∧
      s'.currentProject = "eventa" ∧ s'.currentModalIndex = 3 ∧
      s'.carouselStates "eventaCarousel" = some s'.currentModalIndex :=
  (modal_mutation_syncs_carousel openedPage "eventa" "eventaCarousel" rfl
    ⟨rfl, rfl, rfl, rfl⟩).2.2.1 rfl 3 _ rfl (by decide) (by decide)

/-- C1 (as stated, refuted): the modal is open for `eventa`, which `projectCarousels` maps to
`eventaCarousel`; `goToModalSlide(7)` stores `7` in `currentModalIndex`, raises a `TypeError`
on `images[7]` and leaves `carouselStates['eventaCarousel']` at `0`. -/
theorem goToModalSlide_out_of_set_breaks_sync :
    ModalOpenFor openedPage "eventa" ∧
      repoConfig.projectCarousels "eventa" = some "eventaCarousel" ∧
      (goToModalSlide repoConfig openedPage 7).completed = false ∧
      (goToModalSlide repoConfig openedPage 7).state.currentModalIndex = 7 ∧
      (goToModalSlide repoConfig openedPage 7).state.carouselStates "eventaCarousel"
        = some 0 :=
  ⟨⟨rfl, ⟨rfl, rfl, rfl, rfl⟩, rfl⟩, rfl, rfl, rfl, rfl⟩

/-- C4 (amended): the script's initial globals satisfy
`0 ≤ currentModalIndex < projectImages[currentProject].length`, and from a state that
satisfies it so does the state after `closeImageModal`, after `changeModalSlide` with any
direction, after `openImageModal` with an index inside the image set of the project it opens,
and after `goToModalSlide` with an index inside the image set of the current project. -/
theorem modal_index_in_range (document : State) :
    ModalInRange repoConfig (initialState document) ∧
      ∀ (s : State) (op : ModalOp), ModalInRange repoConfig s →
        op.indexInSet repoConfig s → ModalInRange repoConfig (op.run repoConfig s).state :=
  ⟨⟨_, rfl, show (0 : Int) ≤ 0 by decide, show (0 : Int) < ((4 : Nat) : Int) by decide⟩,
    fun s op hr hop => modalOp_keeps_range repoConfig s op hr hop⟩

theorem modal_index_in_range_witness :
    ModalInRange repoConfig
      ((ModalOp.openModal "images/playpal/playpal-league.png" "PlayPal League" 2
        (some "playpal")).run repoConfig (initialState samplePage)).state :=
  (modal_index_in_range samplePage).2 (initialState samplePage)
    (.openModal "images/playpal/playpal-league.png" "PlayPal League" 2 (some "playpal"))
    (modal_index_in_range samplePage).1 ⟨_, rfl, by decide, by decide⟩

/-- C4 (as stated, refuted): from the initial globals, `openImageModal(src, alt, 7, 'eventa')`
leaves `currentProject = 'eventa'`, whose image set has four images, and
`currentModalIndex = 7`. -/
theorem openImageModal_stores_index_unchecked :
    (openImageModal repoConfig (initialState samplePage) "images/eventa/eventa-home.png"
        "Eventa Home Page" 7 (some "eventa")).completed = true ∧
      (openImageModal repoConfig (initialState samplePage) "images/eventa/eventa-home.png"
        "Eventa Home Page" 7 (some "eventa")).state.currentProject = "eventa" ∧
      (repoConfig.projectImages "eventa").map List.length = some 4 ∧
      (openImageModal repoConfig (initialState samplePage) "images/eventa/eventa-home.png"
        "Eventa Home Page" 7 (some "eventa")).state.currentModalIndex = 7 ∧
      ¬ ModalInRange repoConfig
        (openImageModal repoConfig (initialState samplePage) "images/eventa/eventa-home.png"
          "Eventa Home Page" 7 (some "eventa")).state := by
  refine ⟨rfl, rfl, rfl, rfl, ?_⟩
  rintro ⟨images, himg, _, h1⟩
  have himg' : repoConfig.projectImages "eventa" = some images := himg
  have hlen : images.length = 4 := by
    have h4 : (repoConfig.projectImages "eventa").map List.length = some 4 := rfl
    rw [himg'] at h4
    exact Option.some.inj h4
  have h7 : (7 : Int) < (images.length : Int) := h1
  omega

/-- C5: when the modal is open for a project `p` (of `projectImages` or not) and `openImageModal(src, alt, i, q)` is
called with `q` a key of `projectImages` and `i` inside its image set, a following
`changeModalSlide(d)` with `d` in `{-1, +1}` leaves `currentModalIndex` at
`(i + d) mod projectImages[q].length`; opening `pirro` at `0` and stepping `+1` leaves it
at `0`. -/
theorem modal_step_wraps_by_opened_project (s : State) (p q : String)
    (imagesQ : List Image) (imageSrc imageAlt : String) (i d : Int)
    (hQ : repoConfig.projectImages q = some imagesQ)
    (hopen : ModalOpenFor s p) (h0 : 0 ≤ i) (hi : i < (imagesQ.length : Int))
    (hd : d = -1 ∨ d = 1) :
    (changeModalSlide repoConfig
        (openImageModal repoConfig s imageSrc imageAlt i (some q)).state d).state.currentModalIndex
      = (i + d) % (imagesQ.length : Int) ∧
    (changeModalSlide repoConfig
        (openImageModal repoConfig s imageSrc imageAlt 0 (some "pirro")).state 1).state.currentModalIndex
      = 0 := by
  have step : ∀ (q : String) (imagesQ : List Image) (i d : Int),
      repoConfig.projectImages q = some imagesQ → 0 ≤ i → i < (imagesQ.length : Int) →
      (d = -1 ∨ d = 1) →
      (changeModalSlide repoConfig
        (openImageModal repoConfig s imageSrc imageAlt i (some q)).state d).state.currentModalIndex
      = (i + d) % (imagesQ.length : Int) := by
    intro q imagesQ i d hQ h0 hi hd
    obtain ⟨hqne, hlen⟩ := repoConfig_images q imagesQ hQ
    have hdef : projectOrDefault (some q) = q := by simp [projectOrDefault, hqne]
    obtain ⟨s', e, e1, e2, _, e4, _⟩ := openImageModal_returned repoConfig s imageSrc imageAlt
      i (some q) imagesQ hopen.2.1 (by rw [hdef]; exact hQ)
    rw [e]
    simp only [Outcome.state]
    have hQ' : repoConfig.projectImages s'.currentProject = some imagesQ := by
      rw [e1, hdef]; exact hQ
    obtain ⟨s₂, e₂, _, e₃, _⟩ := changeModalSlide_returned repoConfig s' d imagesQ e4.2.1
      e4.2.2.1 hQ' hlen
    rw [e₂]
    simp only []
    rw [e₃, e2, wrapIndex_step _ i d h0 hi hd]
  exact ⟨step q imagesQ i d hQ h0 hi hd, step "pirro" _ 0 1 rfl (by decide) (by decide) (Or.inr rfl)⟩

theorem modal_step_wraps_by_opened_project_witness :
    (changeModalSlide repoConfig
        (openImageModal repoConfig openedPage "images/playpal/playpal-admin.png"
          "PlayPal Admin Panel" 4 (some "playpal")).state 1).state.currentModalIndex
      = (4 + 1) % ((5 : Nat) : Int) :=
  (modal_step_wraps_by_opened_project openedPage "eventa" "playpal" _
    "images/playpal/playpal-admin.png" "PlayPal Admin Panel" 4 1 rfl
    ⟨rfl, ⟨rfl, rfl, rfl, rfl⟩, rfl⟩ (by decide) (by decide) (Or.inr rfl)).1

/-- C8 (the code at the failing inputs): `goToSlide('missingCarousel', 3)` on a document
without that element creates the entry `carouselStates['missingCarousel'] = 3`, and
`changeModalSlide(+1)` on a document without `modalImage` moves `currentModalIndex`
from `0` to `1`. -/
theorem absent_collaborator_changes_state :
    samplePage.carousels "missingCarousel" = none ∧
      samplePage.carouselStates "missingCarousel" = none ∧
      (goToSlide samplePage "missingCarousel" 3).carouselStates "missingCarousel" = some 3 ∧
      noImagePage.modalImage = none ∧
      noImagePage.currentModalIndex = 0 ∧
      (changeModalSlide repoConfig noImagePage 1).state.currentModalIndex = 1 :=
  ⟨rfl, rfl, rfl, rfl, rfl, rfl⟩

/-- C9 (the code at the failing input): on a carousel without slides and without an entry in
`carouselStates`, `changeSlide(name, -1)` stores `slides.length - 1 = -1` and
`changeSlide(name, +1)` stores `0`. -/
theorem changeSlide_empty_carousel_stores_index :
    emptyCarouselPage.carousels "emptyCarousel" = some ⟨[], some []⟩ ∧
      emptyCarouselPage.carouselStates "emptyCarousel" = none ∧
      (changeSlide emptyCarouselPage "emptyCarousel" (-1)).carouselStates "emptyCarousel"
        = some (-1) ∧
      (changeSlide emptyCarouselPage "emptyCarousel" 1).carouselStates "emptyCarousel"
        = some 0 :=
  ⟨rfl, rfl, rfl, rfl⟩

/-! ## Auto-play timers -/

theorem updateCarousel_timers (s : State) (name : String) (index : Int) :
    (updateCarousel s name index).timers = s.timers := by
  unfold updateCarousel
  cases s.carousels name <;> rfl

theorem syncCarousel_timers (cfg : Config) (s : State) (index : Int) :
    (syncCarousel cfg s index).timers = s.timers := by
  unfold syncCarousel
  split
  · rfl
  · split
    · rfl
    · rw [updateCarousel_timers]

theorem changeSlide_timers (s : State) (name : String) (d : Int) :
    (changeSlide s name d).timers = s.timers := by
  unfold changeSlide
  split
  · rfl
  · simp only [updateCarousel_timers]

theorem goToSlide_timers (s : State) (name : String) (k : Int) :
    (goToSlide s name k).timers = s.timers := by
  unfold goToSlide
  rw [updateCarousel_timers]

theorem openImageModal_timers (cfg : Config) (s : State) (imageSrc imageAlt : String)
    (index : Int) (project : Option String) :
    (openImageModal cfg s imageSrc imageAlt index project).state.timers = s.timers := by
  unfold openImageModal
  split
  · rfl
  · rfl
  · simp only []
    split
    · rfl
    · split
      · rfl
      · split
        · rfl
        · simp only [Outcome.state, syncCarousel_timers]

theorem goToModalSlide_timers (cfg : Config) (s : State) (k : Int) :
    (goToModalSlide cfg s k).state.timers = s.timers := by
  unfold goToModalSlide
  split
  · rfl
  · rfl
  · split
    · rfl
    · simp only []
      split
      · rfl
      · split
        · rfl
        · simp only [Outcome.state, syncCarousel_timers]
          split <;> rfl

theorem changeModalSlide_timers (cfg : Config) (s : State) (d : Int) :
    (changeModalSlide cfg s d).state.timers = s.timers := by
  unfold changeModalSlide
  split
  · rfl
  · split
    · rfl
    · simp only [goToModalSlide_timers]

theorem closeImageModal_timers (s : State) : (closeImageModal s).state.timers = s.timers := by
  unfold closeImageModal
  split <;> rfl

theorem autoPlayTick_timers (s : State) (a : AutoPlay) : (autoPlayTick s a).timers = s.timers := by
  unfold autoPlayTick
  split
  · rfl
  · simp only [updateCarousel_timers]

theorem runEvents_timers (cfg : Config) (events : List PageEvent) (s : State) :
    (runEvents cfg s events).timers = s.timers := by
  induction events generalizing s with
  | nil => rfl
  | cons ev rest ih =>
    have hstep : runEvents cfg s (ev :: rest) = runEvents cfg (ev.run cfg s) rest := rfl
    rw [hstep, ih]
    cases ev with
    | carouselCall name op =>
      cases op with
      | change d => exact changeSlide_timers s name d
      | goTo k => exact goToSlide_timers s name k
    | modalCall op =>
      cases op with
      | openModal imageSrc imageAlt index project =>
        exact openImageModal_timers cfg s imageSrc imageAlt index project
      | closeModal => exact closeImageModal_timers s
      | change d => exact changeModalSlide_timers cfg s d
      | goTo k => exact goToModalSlide_timers cfg s k
    | tick a => exact autoPlayTick_timers s a

/-- The timers a setup leaves: the ones before it, and at most one new one, for its
carousel. -/
theorem setupCarouselAutoPlay_timers (s : State) (name : String) :
    (setupCarouselAutoPlay s name).1.timers = s.timers ∨
      (setupCarouselAutoPlay s name).1.timers = s.timers ++ [(s.lastTimer + 1, name)] := by
  unfold setupCarouselAutoPlay
  split
  · left; rfl
  · split
    · left; rfl
    · right; rfl

/-- C6 (amended): on a carousel with more than one slide and no active timer,
`setupCarouselAutoPlay` leaves exactly one active timer for that name, and a second
`startAutoPlay` of the same setup again leaves exactly one, the handle of the first start
being cleared; and the page, which sets up `eventaCarousel` and `playpalCarousel` once each
from no timers, has at most one active timer per carousel name in every state it reaches. -/
theorem startAutoPlay_twice_one_timer (s : State) (name : String) (carousel : CarouselDom)
    (hc : s.carousels name = some carousel) (hN : 1 < carousel.slides.length)
    (h0 : activeTimers s name = 0) :
    (∃ s₁ a₁ h₁, setupCarouselAutoPlay s name = (s₁, some a₁) ∧
        a₁.autoPlayInterval = some h₁ ∧ (h₁, name) ∈ s₁.timers ∧
        activeTimers s₁ name = 1 ∧
        activeTimers (startAutoPlay s₁ a₁).1 name = 1 ∧
        ∀ t ∈ (startAutoPlay s₁ a₁).1.timers, t.1 ≠ h₁) ∧
      (∀ (document : State) (events : List PageEvent) (n : String),
        activeTimers (runEvents repoConfig (setupAllAutoPlay (initialState document)) events) n
          ≤ 1) := by
  constructor
  · have hnone : ∀ t ∈ s.timers, ¬ (t.2 = name) := by
      intro t ht heq
      have hmem : t ∈ s.timers.filter (fun t => t.2 = name) := by
        simp [List.mem_filter, ht, heq]
      unfold activeTimers at h0
      rw [List.length_eq_zero] at h0
      rw [h0] at hmem
      exact List.not_mem_nil _ hmem
    have hfil : s.timers.filter (fun t => decide (t.2 = name)) = [] := by
      rw [List.filter_eq_nil_iff]
      intro t ht
      simpa using hnone t ht
    have hsetup : setupCarouselAutoPlay s name =
        ({ s with
            carouselStates := setKey s.carouselStates name 0,
            timers := s.timers ++ [(s.lastTimer + 1, name)],
            lastTimer := s.lastTimer + 1 },
          some { carouselId := name, slideCount := carousel.slides.length,
                 autoPlayInterval := some (s.lastTimer + 1), isPaused := false }) := by
      unfold setupCarouselAutoPlay
      rw [hc]
      simp only [if_neg (show ¬ carousel.slides.length ≤ 1 by omega)]
      rfl
    refine ⟨_, _, s.lastTimer + 1, hsetup, rfl, by simp, ?_, ?_, ?_⟩
    · simp [activeTimers, List.filter_append, hfil]
    · simp only [activeTimers, startAutoPlay, setInterval, clearInterval, Nat.succ_ne_zero,
        if_false, List.filter_append, List.length_append]
      have : (List.filter (fun t => decide (t.2 = name))
          (List.filter (fun t => decide (t.1 ≠ s.lastTimer + 1)) s.timers)) = [] := by
        rw [List.filter_eq_nil_iff]
        intro t ht
        have := hnone t (List.mem_of_mem_filter ht)
        simpa using this
      simp [this]
      intro a b hab hb
      exact absurd hb (hnone (a, b) hab)
    · intro t ht
      simp only [startAutoPlay, setInterval, clearInterval, Nat.succ_ne_zero, if_false,
        List.mem_append, List.mem_filter, List.mem_singleton] at ht
      rcases ht with ⟨_, h⟩ | h
      · simpa using h
      · rw [h]
        simp
  · intro document events n
    rw [activeTimers, runEvents_timers]
    have hinit : (initialState document).timers = [] := rfl
    have hlen : ∀ (l : List (Nat × String)), l.length ≤ 1 →
        (l.filter (fun t => decide (t.2 = n))).length ≤ 1 :=
      fun l hl => le_trans (List.length_filter_le _ l) hl
    have hpair : ∀ a b : Nat,
        ([(a, "eventaCarousel"), (b, "playpalCarousel")].filter
          (fun t => decide (t.2 = n))).length ≤ 1 := by
      intro a b
      by_cases h1 : "eventaCarousel" = n
      · subst h1
        simp [List.filter]
      · simp [List.filter, h1]
        split <;> simp
    unfold setupAllAutoPlay
    rcases setupCarouselAutoPlay_timers (initialState document) "eventaCarousel" with e1 | e1 <;>
    rcases setupCarouselAutoPlay_timers
      (setupCarouselAutoPlay (initialState document) "eventaCarousel").1
      "playpalCarousel" with e2 | e2
    · rw [e2, e1, hinit]; simp
    · rw [e2, e1, hinit]; exact hlen _ (by simp)
    · rw [e2, e1, hinit]; exact hlen _ (by simp)
    · rw [e2, e1, hinit]; exact hpair _ _

theorem startAutoPlay_twice_one_timer_witness :
    ∃ s₁ a₁ h₁, setupCarouselAutoPlay samplePage "eventaCarousel" = (s₁, some a₁) ∧
      a₁.autoPlayInterval = some h₁ ∧ (h₁, "eventaCarousel") ∈ s₁.timers ∧
      activeTimers s₁ "eventaCarousel" = 1 ∧
      activeTimers (startAutoPlay s₁ a₁).1 "eventaCarousel" = 1 ∧
      ∀ t ∈ (startAutoPlay s₁ a₁).1.timers, t.1 ≠ h₁ :=
  (startAutoPlay_twice_one_timer samplePage "eventaCarousel"
    ⟨[true, false, false, false], some [true, false, false, false]⟩ rfl (by decide) rfl).1

/-- C6 (as stated, refuted): `eventaCarousel` has four slides and no timer is active; running
`setupCarouselAutoPlay('eventaCarousel')` twice leaves two active timers for it, with the
handles `1` and `2`: the second run has a handle variable of its own and clears nothing. -/
theorem setupCarouselAutoPlay_twice_two_timers :
    samplePage.timers = [] ∧
      (samplePage.carousels "eventaCarousel").map (fun c => c.slides.length) = some 4 ∧
      (setupCarouselAutoPlay (setupCarouselAutoPlay samplePage "eventaCarousel").1
        "eventaCarousel").1.timers = [(1, "eventaCarousel"), (2, "eventaCarousel")] ∧
      activeTimers
        (setupCarouselAutoPlay (setupCarouselAutoPlay samplePage "eventaCarousel").1
          "eventaCarousel").1 "eventaCarousel" = 2 :=
  ⟨rfl, rfl, rfl, rfl⟩

end Portfolio
